import Mathlib

/-!
Shallow embedding of the frame-transport subsystem of the ESP32-CAM TCP
server repository, together with theorems settling the specification
claims about it.

Conventions of the embedding:
* the ESP32 is a 32-bit platform, so the C types `unsigned long`,
  `uint32_t` and `size_t` are modelled as `Nat` reduced modulo `2 ^ 32`
  wherever the source can overflow, `uint16_t` modulo `2 ^ 16`;
* `millis()` readings and other environment inputs (socket write
  results, connection liveness, hostname resolution) are passed in
  explicitly as parameters or oracle functions;
* buffers are `List Nat` (one entry per byte);
* the `float` results of the FPS accessors are modelled exactly in `ℚ`
  (the claims compare them with small integer constants, which is
  insensitive to float rounding).
-/

/-- Modulus of the 32-bit unsigned types (`unsigned long`, `uint32_t`,
`size_t` on the ESP32). -/
def U32 : Nat := 4294967296

/-- Modulus of `uint16_t`. -/
def U16 : Nat := 65536

/-- C unsigned 32-bit subtraction `a - b` (wraparound arithmetic), for
operands already reduced below `2 ^ 32`. -/
def usub32 (a b : Nat) : Nat := (a + (U32 - b % U32)) % U32

/-!
## UDPNetworkClient (include/UDPNetworkClient.h)

The datagram transport with application-level fragmentation.  A
`Fragment` records the four header fields and the payload slice of one
datagram produced by `UDPNetworkClient::send`; the 12-byte big-endian
wire header is recovered by `Fragment.header`.
-/

/-- `MAX_PAYLOAD_SIZE` from `UDPNetworkClient`. -/
def MAX_PAYLOAD_SIZE : Nat := 1400

/-- `HEADER_SIZE` from `UDPNetworkClient`. -/
def HEADER_SIZE : Nat := 12

/-- Big-endian byte serialisation of a 32-bit value (what
`htonl` + `_udp.write` of the 4 header bytes puts on the wire on the
little-endian ESP32). -/
def be32 (n : Nat) : List Nat :=
  [n / 16777216 % 256, n / 65536 % 256, n / 256 % 256, n % 256]

/-- Big-endian byte serialisation of a 16-bit value (via `htons`). -/
def be16 (n : Nat) : List Nat :=
  [n / 256 % 256, n % 256]

/-- One datagram emitted by `UDPNetworkClient::send`: the four header
fields followed by the payload slice. -/
structure Fragment where
  frameId : Nat
  fragmentIndex : Nat
  totalFragments : Nat
  totalFrameSize : Nat
  payload : List Nat
deriving DecidableEq, Repr

/-- The 12 header bytes of a fragment, in wire (big-endian) order. -/
def Fragment.header (f : Fragment) : List Nat :=
  be32 f.frameId ++ be16 f.fragmentIndex ++ be16 f.totalFragments ++ be32 f.totalFrameSize

/-- The `totalFragments` header value computed by `UDPNetworkClient::send`:
`uint16_t totalFragments = (len + MAX_PAYLOAD_SIZE - 1) / MAX_PAYLOAD_SIZE;`
(the quotient is truncated to `uint16_t`) followed by
`if (totalFragments == 0) totalFragments = 1;`. -/
def totalFragmentsOf (len : Nat) : Nat :=
  let t := ((len + (MAX_PAYLOAD_SIZE - 1)) / MAX_PAYLOAD_SIZE) % U16
  if t = 0 then 1 else t

/-- The fragment loop of `UDPNetworkClient::send`
(`while (offset < len) { ... }`): each iteration emits one datagram
carrying `min(MAX_PAYLOAD_SIZE, len - offset)` payload bytes, then
advances `offset` and the `uint16_t` fragment index.  `data` is the
not-yet-consumed suffix of the frame. -/
def buildFragments (fid tf tl : Nat) (data : List Nat) (i : Nat) : List Fragment :=
  if h : data = [] then []
  else
    { frameId := fid
      fragmentIndex := i % U16
      totalFragments := tf
      totalFrameSize := tl % U32
      payload := data.take MAX_PAYLOAD_SIZE } ::
    buildFragments fid tf tl (data.drop MAX_PAYLOAD_SIZE) (i + 1)
termination_by data.length
decreasing_by
  simp only [List.length_drop, MAX_PAYLOAD_SIZE]
  have : 0 < data.length := List.length_pos.mpr h
  omega

/-- Mutable state of a `UDPNetworkClient`: `_connected` and the
`uint32_t _frameId`. -/
structure UDPState where
  connected : Bool
  frameId : Nat
deriving DecidableEq, Repr

/-- The list of datagrams that one call `send(data, len)` emits in order
(empty when not connected). -/
def UDPState.sendFragments (s : UDPState) (data : List Nat) : List Fragment :=
  if s.connected then
    buildFragments s.frameId (totalFragmentsOf data.length) data.length data 0
  else []

/-- Whether every `_udp.endPacket()` of the fragment sequence succeeds;
`ok i` is the outcome of the `endPacket` for the `i`-th datagram.  The
source returns from `send` at the first failure, so a conjunction over
the emitted fragments captures the success condition. -/
def transmitFragments (ok : Nat → Bool) : List Fragment → Nat → Bool
  | [], _ => true
  | _ :: rest, i => ok i && transmitFragments ok rest (i + 1)

/-- `UDPNetworkClient::send`: returns the byte count reported to the
caller together with the successor state.  Not connected returns `0`;
a failed `endPacket` returns `0` with `_frameId` untouched; otherwise
`_frameId++` (wrapping as `uint32_t`) and the full length is returned. -/
def UDPState.send (s : UDPState) (data : List Nat) (ok : Nat → Bool) : Nat × UDPState :=
  if s.connected then
    if transmitFragments ok (s.sendFragments data) 0 then
      (data.length, { s with frameId := (s.frameId + 1) % U32 })
    else (0, s)
  else (0, s)

/-- `UDPNetworkClient::connect`: when hostname resolution succeeds the
client marks itself connected and resets `_frameId` to `0` (and sends
the fire-and-forget handshake, which touches no further modelled
state); otherwise the state is unchanged. -/
def UDPState.connect (s : UDPState) (resolveOk : Bool) : Bool × UDPState :=
  if resolveOk then (true, { connected := true, frameId := 0 })
  else (false, s)

example : totalFragmentsOf 0 = 1 := by decide
example : totalFragmentsOf 3500 = 3 := by decide
example : (UDPState.sendFragments ⟨true, 5⟩ []) = [] := by
  rw [UDPState.sendFragments]
  rw [buildFragments]
  rfl

lemma buildFragments_nil (fid tf tl i : Nat) : buildFragments fid tf tl [] i = [] := by
  rw [buildFragments]
  rfl

lemma buildFragments_cons (fid tf tl : Nat) (data : List Nat) (i : Nat) (h : data ≠ []) :
    buildFragments fid tf tl data i =
      { frameId := fid
        fragmentIndex := i % U16
        totalFragments := tf
        totalFrameSize := tl % U32
        payload := data.take MAX_PAYLOAD_SIZE } ::
      buildFragments fid tf tl (data.drop MAX_PAYLOAD_SIZE) (i + 1) := by
  rw [buildFragments]
  simp [h]

/-- The loop of `UDPNetworkClient::send` emits exactly
`ceil(len / 1400)` datagrams. -/
lemma buildFragments_length (fid tf tl : Nat) :
    ∀ (n : Nat) (data : List Nat) (i : Nat), data.length = n →
      (buildFragments fid tf tl data i).length = (n + 1399) / 1400 := by
  intro n
  induction n using Nat.strong_induction_on with
  | _ n ih =>
    intro data i hlen
    by_cases hd : data = []
    · subst hd
      rw [buildFragments_nil]
      simp only [List.length_nil] at hlen
      simp only [List.length_nil]
      omega
    · have hpos : 0 < data.length := List.length_pos.mpr hd
      rw [buildFragments_cons fid tf tl data i hd]
      have hrec :
          (buildFragments fid tf tl (data.drop MAX_PAYLOAD_SIZE) (i + 1)).length =
            ((n - 1400) + 1399) / 1400 := by
        apply ih (n - 1400) (by omega)
        simp only [List.length_drop, MAX_PAYLOAD_SIZE, hlen]
      simp only [List.length_cons, hrec]
      omega

/-!
## TcpServer (src/TcpServer.cpp) and CameraTcpServer (src/CameraTcpServer.cpp)

Only the fields that the rate gate, the statistics and the FPS ring
touch are modelled; the `WiFiServer`/`WiFiClient` socket objects are
replaced by explicit oracle parameters.  `CameraTcpServer` duplicates
the `TcpServer` rate-gate and FPS-ring code verbatim except that its
`canSend` is `const` (no timestamp rewrite on wraparound); both
variants are modelled.
-/

structure TcpServerState where
  frameInterval : Nat
  lastFrameTime : Nat
  clientCount : Nat
  frameCount : Nat
  bytesSent : Nat
  fpsTimestamps : List Nat
  fpsIndex : Nat
deriving DecidableEq, Repr

/-- Constructor state of `TcpServer` (all counters zero, the FPS ring
zero-filled); the `frameInterval` resulting from the constructor's
unguarded float conversion is supplied by `TcpServer.frameIntervalOf`
below. -/
def TcpServerState.init (interval : Nat) : TcpServerState :=
  { frameInterval := interval
    lastFrameTime := 0
    clientCount := 0
    frameCount := 0
    bytesSent := 0
    fpsTimestamps := List.replicate 10 0
    fpsIndex := 0 }

/-- `TcpServer::updateFPS` (also `CameraTcpServer::updateFPS` and
`CameraRelayClient::updateFPS`, which are verbatim copies): store the
current clock reading at `_fpsIndex` and advance the index modulo 10. -/
def TcpServerState.updateFPS (s : TcpServerState) (now : Nat) : TcpServerState :=
  { s with
    fpsTimestamps := s.fpsTimestamps.set s.fpsIndex now
    fpsIndex := (s.fpsIndex + 1) % 10 }

/-- `TcpServer::getActualFPS` (identical in `CameraTcpServer` and
`CameraRelayClient`): `0.0` until slot 9 holds a nonzero timestamp,
else `9000.0 / elapsed` where
`elapsed = _fpsTimestamps[_fpsIndex] - _fpsTimestamps[(_fpsIndex + 1) % 10]`
in `unsigned long` wraparound arithmetic (and `0.0` when that elapsed
value is `0`). -/
def TcpServerState.getActualFPS (s : TcpServerState) : ℚ :=
  if s.fpsTimestamps.getD 9 0 = 0 then 0
  else
    let elapsed := usub32 (s.fpsTimestamps.getD s.fpsIndex 0)
      (s.fpsTimestamps.getD ((s.fpsIndex + 1) % 10) 0)
    if elapsed = 0 then 0
    else 9000 / (elapsed : ℚ)

/-- The statistics tail of a successful `TcpServer::sendData`
(`_bytesSent += written; _frameCount++; _lastFrameTime = millis();
updateFPS();`), with the two `millis()` readings of one call modelled
as the same `now`. -/
def TcpServerState.recordSend (s : TcpServerState) (written now : Nat) : TcpServerState :=
  TcpServerState.updateFPS
    { s with
      bytesSent := (s.bytesSent + written) % U32
      frameCount := (s.frameCount + 1) % U32
      lastFrameTime := now } now

/-- `TcpServer::sendData`: oracle inputs are whether a live client is
attached and the byte count the socket write reports. -/
def TcpServerState.sendData (s : TcpServerState) (length : Nat)
    (hasClient : Bool) (written now : Nat) : Bool × TcpServerState :=
  if hasClient = false then (false, s)
  else if written ≠ length then (false, s)
  else (true, s.recordSend written now)

/-- `TcpServer::canSend` (note: on wraparound it also rewrites
`_lastFrameTime` to `now`). -/
def TcpServerState.canSend (s : TcpServerState) (now : Nat) : Bool × TcpServerState :=
  if now < s.lastFrameTime then (true, { s with lastFrameTime := now })
  else (decide (now - s.lastFrameTime ≥ s.frameInterval), s)

/-- `CameraTcpServer::canSend` / `CameraRelayClient::canSend` (the
`const` variant: same test, no state change). -/
def cameraCanSend (frameInterval lastFrameTime now : Nat) : Bool :=
  if now < lastFrameTime then true
  else decide (now - lastFrameTime ≥ frameInterval)

/-- C++ conversion of a floating-point value to `unsigned long`: the
value is first truncated toward zero, and the conversion is defined
exactly when that truncated value is representable in the 32-bit type.
So values in `(-1, 0)` convert to the defined value `0`, while values
at or below `-1`, at or above `2^32`, and the infinity that IEEE
division by zero yields have no defined result, modelled as `none`. -/
def castToULong (x : ℚ) : Option Nat :=
  let t : Int := if 0 ≤ x then Int.floor x else Int.ceil x
  if 0 ≤ t ∧ t < (U32 : Int) then some t.toNat else none

/-- Truncation toward zero of a value at or below `-1` is a negative
integer, which `unsigned long` cannot represent. -/
lemma castToULong_of_le_neg_one (x : ℚ) (h : x ≤ -1) : castToULong x = none := by
  have hx0 : ¬ (0 ≤ x) := by
    intro hc
    linarith
  have hc1 : Int.ceil x ≤ -1 := by
    rw [Int.ceil_le]
    push_cast
    exact h
  simp only [castToULong, if_neg hx0]
  rw [if_neg]
  intro hcon
  omega

/-- Truncation toward zero of a negative value above `-1` yields the
representable value `0`. -/
lemma castToULong_of_neg_gt_neg_one (x : ℚ) (h1 : -1 < x) (h2 : x < 0) :
    castToULong x = some 0 := by
  have hx0 : ¬ (0 ≤ x) := not_le.mpr h2
  have hcle : Int.ceil x ≤ 0 := by
    rw [Int.ceil_le]
    push_cast
    exact le_of_lt h2
  have hcgt : -1 < Int.ceil x := by
    rw [Int.lt_ceil]
    push_cast
    exact h1
  have hc0 : Int.ceil x = 0 := by omega
  simp only [castToULong, if_neg hx0, hc0]
  rw [if_pos]
  · rfl
  · constructor
    · omega
    · show (0 : Int) < (U32 : Int)
      rw [U32]
      omega

/-- `TcpServer::setTargetFPS` / the `TcpServer` constructor interval:
`_frameInterval = (unsigned long)(1000.0 / fps);` with no guard on
`fps`.  The float quotient is modelled exactly in `ℚ`; `fps = 0`
divides by zero (IEEE infinity), which the integer conversion cannot
represent. -/
def TcpServer.frameIntervalOf (fps : ℚ) : Option Nat :=
  if fps = 0 then none else castToULong (1000 / fps)

/-- `CameraTcpServer::setTargetFPS` / constructor: verbatim the same
unguarded conversion as `TcpServer`. -/
def CameraTcpServer.frameIntervalOf (fps : ℚ) : Option Nat :=
  if fps = 0 then none else castToULong (1000 / fps)

/-!
## RelayClient (src/RelayClient.cpp)
-/

structure RelayState where
  isConnected : Bool
  lastConnectionAttempt : Nat
  lastSendTime : Nat
  minSendInterval : Nat
  frameCount : Nat
  totalBytesSent : Nat
deriving DecidableEq, Repr

/-- `RelayClient::updateFPSInterval`: a positive target rate yields
`(unsigned long)(1000.0 / _targetFPS)`, a non-positive one leaves the
interval at `0` (unlimited). -/
def RelayClient.fpsIntervalOf (fps : ℚ) : Option Nat :=
  if 0 < fps then castToULong (1000 / fps) else some 0

/-- `RelayClient::canSend`: interval `0` always permits, otherwise
`millis() - _lastSendTime >= _minSendInterval` in `unsigned long`
wraparound arithmetic. -/
def RelayClient.canSend (minSendInterval lastSendTime now : Nat) : Bool :=
  if minSendInterval = 0 then true
  else decide (minSendInterval ≤ usub32 now lastSendTime)

/-- The write loop of `RelayClient::sendData`
(`while (remaining > 0 && _client.connected()) { ... }`); `conn i` and
`wr i` are the liveness check and the `_client.write` result of the
`i`-th iteration.  `none` models the `sent == 0` early return (send
failure); `some totalSent` models a normal loop exit — by exhausting
`remaining` or by the liveness check turning false mid-loop. -/
def relayWriteLoop (conn : Nat → Bool) (wr : Nat → Nat)
    (i totalSent remaining : Nat) : Option Nat :=
  if remaining = 0 then some totalSent
  else if conn i = false then some totalSent
  else if _h : wr i = 0 then none
  else relayWriteLoop conn wr (i + 1) (totalSent + wr i) (remaining - wr i)
termination_by remaining
decreasing_by omega

/-- `RelayClient::sendData`: not-connected and FPS-throttled calls
return `false` untouched; a zero-length write aborts with
`_isConnected = false` and no statistics update; a normal loop exit
updates the counters (`unsigned long`, 32-bit on the ESP32) and the
last-send timestamp, then proactively closes the connection
(`_client.stop(); _isConnected = false;`) and returns `true`. -/
def RelayState.sendData (s : RelayState) (length now : Nat)
    (conn : Nat → Bool) (wr : Nat → Nat) : Bool × RelayState :=
  if s.isConnected = false then (false, s)
  else if RelayClient.canSend s.minSendInterval s.lastSendTime now = false then (false, s)
  else
    match relayWriteLoop conn wr 0 0 length with
    | none => (false, { s with isConnected := false })
    | some totalSent =>
        (true,
          { s with
            frameCount := (s.frameCount + 1) % U32
            totalBytesSent := (s.totalBytesSent + totalSent) % U32
            lastSendTime := now
            isConnected := false })

/-- The reconnection branch of `RelayClient::run` under an
always-failing connect: `attemptConnection` is entered only when
`now - _lastConnectionAttempt >= _retryDelay` (wraparound arithmetic)
and then stamps `_lastConnectionAttempt = millis()`; the returned flag
records whether a connection attempt was made this tick. -/
def RelayClient.retryStep (lastAttempt retryDelay now : Nat) : Bool × Nat :=
  if retryDelay ≤ usub32 now lastAttempt then (true, now) else (false, lastAttempt)

/-- `CameraRelayClient::attemptConnection` under an always-failing
connect: the guard `now - _lastConnectionAttempt < _retryDelay` returns
early, otherwise `_lastConnectionAttempt = now` and the connect is
attempted. -/
def CameraRelayClient.retryStep (lastAttempt retryDelay now : Nat) : Bool × Nat :=
  if usub32 now lastAttempt < retryDelay then (false, lastAttempt) else (true, now)

/-!
## CameraRelayClient (src/CameraRelayClient.cpp)

`run()` drives the whole tick: connection management, FPS gate, frame
capture and the single-shot socket write.  The camera and socket are
oracle inputs.
-/

inductive CamStatus where
  | ok
  | cameraInitFailed
  | cameraCaptureFailed
  | notConnected
  | sendFailed
  | reconnecting
  | idle
deriving DecidableEq, Repr

structure CamRelayState where
  isConnected : Bool
  cameraInitialized : Bool
  retryDelay : Nat
  lastConnectionAttempt : Nat
  lastFrameTime : Nat
  frameInterval : Nat
  frameCount : Nat
  bytesSent : Nat
  fpsTimestamps : List Nat
  fpsIndex : Nat
deriving DecidableEq, Repr

/-- Environment inputs of one `CameraRelayClient::run` tick:
`connectOk` is the `_client.connect` outcome, `clientAlive` the
`_client.connected()` liveness probe, `captureOk`/`fbLen` the frame
buffer availability and its byte length, `written` the
`_client.write(fb->buf, fb->len)` result. -/
structure CamOracle where
  connectOk : Bool
  clientAlive : Bool
  captureOk : Bool
  fbLen : Nat
  written : Nat
deriving DecidableEq, Repr

/-- `CameraRelayClient::attemptConnection` (full version, with the
connect outcome): respects the retry delay, stamps the attempt time,
and marks connected on success. -/
def CamRelayState.attemptConnection (s : CamRelayState) (now : Nat)
    (connectOk : Bool) : CamRelayState :=
  if usub32 now s.lastConnectionAttempt < s.retryDelay then s
  else
    let s1 := { s with lastConnectionAttempt := now }
    if connectOk then { s1 with isConnected := true } else s1

/-- `CameraRelayClient::run`: the exact cascade of early returns of the
source, ending (on `OK`) with the statistics update — note that the
success path leaves `_isConnected` untouched (the connection stays
open). -/
def CamRelayState.run (s : CamRelayState) (now : Nat) (o : CamOracle) :
    CamStatus × CamRelayState :=
  if s.cameraInitialized = false then (CamStatus.cameraInitFailed, s)
  else
    let s1 := if s.isConnected = false then s.attemptConnection now o.connectOk else s
    if s1.isConnected = false then (CamStatus.reconnecting, s1)
    else if o.clientAlive = false then
      (CamStatus.notConnected, { s1 with isConnected := false })
    else if cameraCanSend s1.frameInterval s1.lastFrameTime now = false then
      (CamStatus.idle, s1)
    else if o.captureOk = false then (CamStatus.cameraCaptureFailed, s1)
    else if o.written ≠ o.fbLen then
      (CamStatus.sendFailed, { s1 with isConnected := false })
    else
      (CamStatus.ok,
        { s1 with
          bytesSent := (s1.bytesSent + o.written) % U32
          frameCount := (s1.frameCount + 1) % U32
          lastFrameTime := now
          fpsTimestamps := s1.fpsTimestamps.set s1.fpsIndex now
          fpsIndex := (s1.fpsIndex + 1) % 10 })

/-!
## Arithmetic helpers for the wraparound clock
-/

/-- When no wraparound occurred, `usub32` is the true elapsed time. -/
lemma usub32_of_le (a b : Nat) (h1 : b ≤ a) (h2 : a < U32) : usub32 a b = a - b := by
  unfold usub32
  have hb : b % U32 = b := Nat.mod_eq_of_lt (lt_of_le_of_lt h1 h2)
  rw [hb]
  have he : a + (U32 - b) = U32 + (a - b) := by
    have : b ≤ U32 := le_of_lt (lt_of_le_of_lt h1 h2)
    omega
  rw [he, Nat.add_mod_left]
  exact Nat.mod_eq_of_lt (by omega)

/-- Advancing a wrapped clock by `d` from reading `b` yields elapsed
`d % 2 ^ 32` as seen through `usub32`. -/
lemma usub32_add_cancel (b d : Nat) (hb : b < U32) :
    usub32 ((b + d) % U32) b = d % U32 := by
  unfold usub32
  have hb0 : b % U32 = b := Nat.mod_eq_of_lt hb
  rw [hb0, Nat.mod_add_mod]
  have he : b + d + (U32 - b) = U32 + d := by omega
  rw [he, Nat.add_mod_left]

/-!
## Claim theorems: the datagram transport
-/

/-- C9: `UDPNetworkClient::send` never reports partial success — for
every connection state, payload and datagram outcome its return value
is either `0` or exactly `len`. -/
theorem udp_send_all_or_nothing (s : UDPState) (data : List Nat) (ok : Nat → Bool) :
    (s.send data ok).1 = 0 ∨ (s.send data ok).1 = data.length := by
  unfold UDPState.send
  by_cases hc : s.connected
  · by_cases ht : transmitFragments ok (s.sendFragments data) 0 <;> simp [hc, ht]
  · simp [hc]

/-- C5: the 32-bit frame identifier increments by exactly 1 (modulo
`2 ^ 32`) after a fully successful `send()` — one in which the client is
connected and every fragment's `endPacket` succeeds, whereupon the full
length is returned — does not change after a failed one (which returns
`0`), and is reset to `0` by a successful `connect()`. -/
theorem udp_frameId_increment :
    (∀ (s : UDPState) (data : List Nat) (ok : Nat → Bool),
        s.connected = true → transmitFragments ok (s.sendFragments data) 0 = true →
          (s.send data ok).2.frameId = (s.frameId + 1) % U32 ∧
          (s.send data ok).1 = data.length) ∧
    (∀ (s : UDPState) (data : List Nat) (ok : Nat → Bool),
        s.connected = false ∨ transmitFragments ok (s.sendFragments data) 0 = false →
          (s.send data ok).2.frameId = s.frameId ∧ (s.send data ok).1 = 0) ∧
    (∀ s : UDPState, ((s.connect true).2).frameId = 0) := by
  refine ⟨?_, ?_, ?_⟩
  · intro s data ok hc ht
    simp [UDPState.send, hc, ht]
  · intro s data ok h
    rcases h with h | h
    · simp [UDPState.send, h]
    · by_cases hc : s.connected <;> simp [UDPState.send, hc, h]
  · intro s
    simp [UDPState.connect]

/-- Witness for C5: a connected client with frame id 41 sending a
3-byte frame over a loss-free socket ends with frame id 42 and reports
3 bytes; the same send over a failing socket keeps frame id 41. -/
theorem udp_frameId_increment_at_41 :
    ((⟨true, 41⟩ : UDPState).send [1, 2, 3] (fun _ => true)).2.frameId = 42 ∧
    ((⟨true, 41⟩ : UDPState).send [1, 2, 3] (fun _ => false)).2.frameId = 41 := by
  have hfrag : (UDPState.sendFragments ⟨true, 41⟩ [1, 2, 3]) =
      [{ frameId := 41, fragmentIndex := 0, totalFragments := 1,
         totalFrameSize := 3, payload := [1, 2, 3] }] := by
    rw [UDPState.sendFragments]
    simp only [if_true]
    rw [buildFragments_cons _ _ _ _ _ (by simp)]
    norm_num [buildFragments_nil, U16, U32, totalFragmentsOf, MAX_PAYLOAD_SIZE]
  constructor
  · have h := udp_frameId_increment.1 ⟨true, 41⟩ [1, 2, 3] (fun _ => true) rfl
      (by rw [hfrag]; rfl)
    rw [h.1]
    decide
  · have h := udp_frameId_increment.2.1 ⟨true, 41⟩ [1, 2, 3] (fun _ => false)
      (Or.inr (by rw [hfrag]; rfl))
    exact h.1

/-- C2 (evaluation at the failing input): a connected client sending an
empty payload emits no datagram at all — the fragment loop
`while (offset < len)` never runs for `len = 0` — even though the header
count `totalFragments` was forced to `1`; the call returns `0` and still
advances the frame id. -/
theorem udp_send_empty_emits_no_fragment :
    UDPState.sendFragments ⟨true, 7⟩ [] = [] ∧
    totalFragmentsOf 0 = 1 ∧
    UDPState.send ⟨true, 7⟩ [] (fun _ => true) = (0, ⟨true, 8⟩) := by
  have hfrag : UDPState.sendFragments ⟨true, 7⟩ ([] : List Nat) = [] := by
    rw [UDPState.sendFragments]
    simp only [if_true]
    exact buildFragments_nil _ _ _ _
  refine ⟨hfrag, by decide, ?_⟩
  rw [UDPState.send, hfrag]
  simp [transmitFragments]
  decide

/-- The fragment sequence of a 3500-byte frame, computed symbolically. -/
lemma sendFragments_of_length_3500 (data : List Nat) (fid : Nat) (h : data.length = 3500) :
    UDPState.sendFragments ⟨true, fid⟩ data =
      [{ frameId := fid, fragmentIndex := 0, totalFragments := 3,
         totalFrameSize := 3500, payload := data.take 1400 },
       { frameId := fid, fragmentIndex := 1, totalFragments := 3,
         totalFrameSize := 3500, payload := (data.drop 1400).take 1400 },
       { frameId := fid, fragmentIndex := 2, totalFragments := 3,
         totalFrameSize := 3500, payload := (data.drop 2800).take 1400 }] := by
  have h0 : data ≠ [] := by
    intro he
    rw [he] at h
    simp at h
  have h1len : (data.drop 1400).length = 2100 := by
    simp [List.length_drop, h]
  have h1 : data.drop 1400 ≠ [] := by
    intro he
    rw [he] at h1len
    simp at h1len
  have h2eq : (data.drop 1400).drop 1400 = data.drop 2800 := by
    rw [List.drop_drop]
  have h2len : (data.drop 2800).length = 700 := by
    simp [List.length_drop, h]
  have h2 : data.drop 2800 ≠ [] := by
    intro he
    rw [he] at h2len
    simp at h2len
  have h3 : (data.drop 2800).drop 1400 = [] := by
    apply List.eq_nil_of_length_eq_zero
    simp [List.length_drop, h]
  rw [UDPState.sendFragments]
  simp only [if_true, h]
  have htf : totalFragmentsOf 3500 = 3 := by decide
  rw [htf]
  rw [buildFragments_cons _ _ _ _ _ h0]
  simp only [MAX_PAYLOAD_SIZE]
  rw [buildFragments_cons _ _ _ _ _ h1]
  simp only [MAX_PAYLOAD_SIZE, h2eq]
  rw [buildFragments_cons _ _ _ _ _ h2]
  simp only [MAX_PAYLOAD_SIZE, h3, buildFragments_nil]
  norm_num [U16, U32]

/-- C6: a connected send of a 3500-byte frame splits it into exactly 3
fragments with payload sizes 1400, 1400, 700 and fragment indices
0, 1, 2; every fragment's 12-byte header repeats the fragment count 3
and carries the same frame id and the same total frame size 3500; and
in general the loop emits `ceil(L / 1400)` fragments for a frame of
size `L`. -/
theorem udp_fragmentation_3500 :
    (∀ (data : List Nat) (fid : Nat), data.length = 3500 →
      (UDPState.sendFragments ⟨true, fid⟩ data).map (fun f => f.payload.length) =
          [1400, 1400, 700] ∧
      (UDPState.sendFragments ⟨true, fid⟩ data).map Fragment.fragmentIndex = [0, 1, 2] ∧
      ∀ f ∈ UDPState.sendFragments ⟨true, fid⟩ data,
        f.totalFragments = 3 ∧ f.frameId = fid ∧ f.totalFrameSize = 3500 ∧
        f.header.length = 12) ∧
    (∀ (data : List Nat) (fid : Nat),
      (UDPState.sendFragments ⟨true, fid⟩ data).length = (data.length + 1399) / 1400) := by
  constructor
  · intro data fid h
    rw [sendFragments_of_length_3500 data fid h]
    refine ⟨?_, by simp, ?_⟩
    · simp [List.length_take, List.length_drop, h]
    · intro f hf
      simp only [List.mem_cons, List.not_mem_nil, or_false] at hf
      rcases hf with hf | hf | hf <;>
        simp [hf, Fragment.header, be32, be16]
  · intro data fid
    rw [UDPState.sendFragments]
    simp only [if_true]
    exact buildFragments_length _ _ _ data.length data 0 rfl

/-- Witness for C6: the fragmentation facts evaluated on the concrete
3500-byte all-zero frame with frame id 9, and the fragment count of a
decidedly non-multiple length 2801. -/
theorem udp_fragmentation_3500_at_zeros :
    (UDPState.sendFragments ⟨true, 9⟩ (List.replicate 3500 0)).map
        (fun f => f.payload.length) = [1400, 1400, 700] ∧
    (UDPState.sendFragments ⟨true, 9⟩ (List.replicate 3500 0)).map
        Fragment.fragmentIndex = [0, 1, 2] ∧
    (UDPState.sendFragments ⟨true, 9⟩ (List.replicate 2801 0)).length = 3 := by
  have h1 := (udp_fragmentation_3500.1 (List.replicate 3500 0) 9
    (by rw [List.length_replicate]))
  have h2 := udp_fragmentation_3500.2 (List.replicate 2801 0) 9
  refine ⟨h1.1, h1.2.1, ?_⟩
  rw [h2, List.length_replicate]

/-!
## Claim theorems: the FPS ring and the rate gate
-/

/-- State of a `TcpServer` that has performed one fully successful
100-byte `sendData` at each clock reading in `times`, in order. -/
def TcpServerState.afterSends (interval : Nat) (times : List Nat) : TcpServerState :=
  times.foldl (fun s t => (s.sendData 100 true 100 t).2) (TcpServerState.init interval)

/-- C1 (evaluation at the failing input): after exactly 10 successful
sends spaced 100 ms apart (at 100, 200, ..., 1000 ms), `getActualFPS`
does not return `9000 / 900 = 10`: the code subtracts the second-oldest
ring entry from the oldest (`_fpsTimestamps[_fpsIndex]` is the next
slot to be overwritten, i.e. the oldest sample), so the `unsigned long`
difference wraps to `2^32 - 100 = 4294967196` and the result is
`9000 / 4294967196 ≈ 0.0000021`. -/
theorem tcpServer_getActualFPS_after_10_sends :
    TcpServerState.getActualFPS
        (TcpServerState.afterSends 100
          [100, 200, 300, 400, 500, 600, 700, 800, 900, 1000]) =
      9000 / 4294967196 ∧
    TcpServerState.getActualFPS
        (TcpServerState.afterSends 100
          [100, 200, 300, 400, 500, 600, 700, 800, 900, 1000]) ≠ 10 := by
  have hstate :
      TcpServerState.afterSends 100
          [100, 200, 300, 400, 500, 600, 700, 800, 900, 1000] =
        { frameInterval := 100, lastFrameTime := 1000, clientCount := 0,
          frameCount := 10, bytesSent := 1000,
          fpsTimestamps := [100, 200, 300, 400, 500, 600, 700, 800, 900, 1000],
          fpsIndex := 0 } := by
    decide
  have hval : TcpServerState.getActualFPS
      (TcpServerState.afterSends 100
        [100, 200, 300, 400, 500, 600, 700, 800, 900, 1000]) =
      9000 / 4294967196 := by
    rw [hstate]
    rw [TcpServerState.getActualFPS]
    norm_num [List.getD, usub32, U32]
  refine ⟨hval, ?_⟩
  rw [hval]
  norm_num

/-- C3 (counterexample): passing target rate `0` to
`TcpServer::setTargetFPS` or `CameraTcpServer::setTargetFPS` does not
yield an "unlimited" gate — the unguarded conversion
`(unsigned long)(1000.0 / fps)` divides by zero and has no valid
`unsigned long` result at all. -/
theorem server_setTargetFPS_zero_unguarded :
    TcpServer.frameIntervalOf 0 = none ∧ CameraTcpServer.frameIntervalOf 0 = none := by
  constructor <;> simp [TcpServer.frameIntervalOf, CameraTcpServer.frameIntervalOf]

/-- C3 (amended): only `RelayClient` guards non-positive target rates
by design — `updateFPSInterval` maps every rate `fps ≤ 0` to interval
`0`, and interval `0` makes its `canSend` permit unconditionally.
`TcpServer` and `CameraTcpServer` leave the conversion
`(unsigned long)(1000.0 / fps)` unguarded: for `fps = 0` it divides by
zero and for `-1000 ≤ fps < 0` it truncates to a negative integer, so
no valid interval is produced; only for `fps < -1000` does the
quotient land in `(-1, 0)` and truncate to the defined interval `0` —
which their gates then do treat as unlimited, by accident rather than
by a guard. -/
theorem nonpositive_rate_guard_amended :
    (∀ fps : ℚ, fps ≤ 0 → RelayClient.fpsIntervalOf fps = some 0) ∧
    (∀ lastSendTime now : Nat, RelayClient.canSend 0 lastSendTime now = true) ∧
    (∀ fps : ℚ, -1000 ≤ fps → fps ≤ 0 →
      TcpServer.frameIntervalOf fps = none ∧
      CameraTcpServer.frameIntervalOf fps = none) ∧
    (∀ fps : ℚ, fps < -1000 →
      TcpServer.frameIntervalOf fps = some 0 ∧
      CameraTcpServer.frameIntervalOf fps = some 0) ∧
    (∀ lastFrameTime now : Nat, cameraCanSend 0 lastFrameTime now = true) ∧
    (∀ (s : TcpServerState) (now : Nat), s.frameInterval = 0 →
      (s.canSend now).1 = true) := by
  have hdiv_le : ∀ fps : ℚ, -1000 ≤ fps → fps < 0 → (1000 : ℚ) / fps ≤ -1 := by
    intro fps h1 hneg
    rw [div_le_iff_of_neg hneg]
    linarith
  have hdiv_gt : ∀ fps : ℚ, fps < -1000 → -1 < (1000 : ℚ) / fps := by
    intro fps h
    have hneg : fps < 0 := by linarith
    rw [lt_div_iff_of_neg hneg]
    linarith
  refine ⟨?_, ?_, ?_, ?_, ?_, ?_⟩
  · intro fps hle
    unfold RelayClient.fpsIntervalOf
    rw [if_neg]
    intro hcon
    exact absurd (lt_of_lt_of_le hcon hle) (lt_irrefl 0)
  · intro lastSendTime now
    rfl
  · intro fps h1 h2
    rcases lt_or_eq_of_le h2 with hlt | heq
    · have hle := hdiv_le fps h1 hlt
      constructor
      · unfold TcpServer.frameIntervalOf
        rw [if_neg (ne_of_lt hlt), castToULong_of_le_neg_one _ hle]
      · unfold CameraTcpServer.frameIntervalOf
        rw [if_neg (ne_of_lt hlt), castToULong_of_le_neg_one _ hle]
    · subst heq
      constructor
      · unfold TcpServer.frameIntervalOf
        rw [if_pos rfl]
      · unfold CameraTcpServer.frameIntervalOf
        rw [if_pos rfl]
  · intro fps h
    have hneg : fps < 0 := by linarith
    have hup := hdiv_gt fps h
    have hdown : (1000 : ℚ) / fps < 0 := div_neg_of_pos_of_neg (by norm_num) hneg
    constructor
    · unfold TcpServer.frameIntervalOf
      rw [if_neg (ne_of_lt hneg), castToULong_of_neg_gt_neg_one _ hup hdown]
    · unfold CameraTcpServer.frameIntervalOf
      rw [if_neg (ne_of_lt hneg), castToULong_of_neg_gt_neg_one _ hup hdown]
  · intro lastFrameTime now
    unfold cameraCanSend
    by_cases hlt : now < lastFrameTime
    · rw [if_pos hlt]
    · rw [if_neg hlt]
      simp
  · intro s now h
    unfold TcpServerState.canSend
    by_cases hlt : now < s.lastFrameTime
    · rw [if_pos hlt]
    · rw [if_neg hlt]
      simp [h]

/-- Witness for the amended C3: at rate `-2` the relay interval is `0`
with its gate open while the server intervals are undefined; at rate
`-2000` the server intervals are the accidental `0`, and the server
gates with interval `0` permit. -/
theorem nonpositive_rate_guard_amended_at_neg2 :
    RelayClient.fpsIntervalOf (-2) = some 0 ∧
    RelayClient.canSend 0 123 45 = true ∧
    TcpServer.frameIntervalOf (-2) = none ∧
    CameraTcpServer.frameIntervalOf (-2) = none ∧
    TcpServer.frameIntervalOf (-2000) = some 0 ∧
    CameraTcpServer.frameIntervalOf (-2000) = some 0 ∧
    cameraCanSend 0 9 4 = true ∧
    ((TcpServerState.init 0).canSend 5).1 = true :=
  ⟨nonpositive_rate_guard_amended.1 (-2) (by norm_num),
   nonpositive_rate_guard_amended.2.1 123 45,
   (nonpositive_rate_guard_amended.2.2.1 (-2) (by norm_num) (by norm_num)).1,
   (nonpositive_rate_guard_amended.2.2.1 (-2) (by norm_num) (by norm_num)).2,
   (nonpositive_rate_guard_amended.2.2.2.1 (-2000) (by norm_num)).1,
   (nonpositive_rate_guard_amended.2.2.2.1 (-2000) (by norm_num)).2,
   nonpositive_rate_guard_amended.2.2.2.2.1 9 4,
   nonpositive_rate_guard_amended.2.2.2.2.2 (TcpServerState.init 0) 5 rfl⟩

/-- C7 (counterexample): `RelayClient::canSend` does not uncondition-
ally permit when the clock has wrapped past the stored timestamp.  With
interval 200 ms, last send at `2^32 - 100` and the clock rolled over to
`5`, we have `now < lastSendTimestamp` but the wrapped difference is
only `105 < 200`, so the gate denies the send. -/
theorem relay_canSend_wraparound_denies :
    5 < U32 - 100 ∧ RelayClient.canSend 200 (U32 - 100) 5 = false := by
  constructor
  · decide
  · decide

/-- C7 (amended): `TcpServer::canSend` (and the `const` copy used by
`CameraTcpServer`/`CameraRelayClient`) returns true whenever
`now < _lastFrameTime`, for every configured interval; `RelayClient`'s
gate instead computes the elapsed time in mod-`2^32` arithmetic and
permits exactly when that elapsed value reaches the interval, so a
wrapped clock can still be throttled within one interval — but for any
interval below `2^32` the gate reopens once the wrapped clock has
advanced by the interval, so wraparound never permanently blocks
sending. -/
theorem canSend_wraparound_amended :
    (∀ (s : TcpServerState) (now : Nat), now < s.lastFrameTime →
      (s.canSend now).1 = true) ∧
    (∀ frameInterval lastFrameTime now : Nat, now < lastFrameTime →
      cameraCanSend frameInterval lastFrameTime now = true) ∧
    (∀ minSendInterval lastSendTime now : Nat, minSendInterval ≠ 0 →
      (RelayClient.canSend minSendInterval lastSendTime now = true ↔
        minSendInterval ≤ usub32 now lastSendTime)) ∧
    (∀ minSendInterval lastSendTime : Nat,
      0 < minSendInterval → minSendInterval < U32 → lastSendTime < U32 →
      RelayClient.canSend minSendInterval lastSendTime
        ((lastSendTime + minSendInterval) % U32) = true) := by
  refine ⟨?_, ?_, ?_, ?_⟩
  · intro s now h
    unfold TcpServerState.canSend
    rw [if_pos h]
  · intro frameInterval lastFrameTime now h
    unfold cameraCanSend
    rw [if_pos h]
  · intro minSendInterval lastSendTime now h
    unfold RelayClient.canSend
    rw [if_neg h]
    exact decide_eq_true_iff
  · intro minSendInterval lastSendTime hpos hlt hts
    unfold RelayClient.canSend
    rw [if_neg (Nat.pos_iff_ne_zero.mp hpos)]
    rw [usub32_add_cancel lastSendTime minSendInterval hts]
    rw [Nat.mod_eq_of_lt hlt]
    simp

/-- Witness for the amended C7: the server gate permits on a wrapped
clock under a huge interval, and the relay gate reopens at exactly one
interval past a pre-wrap timestamp. -/
theorem canSend_wraparound_amended_at_inputs :
    (({ frameInterval := 4000000000, lastFrameTime := 5, clientCount := 0,
        frameCount := 0, bytesSent := 0, fpsTimestamps := List.replicate 10 0,
        fpsIndex := 0 } : TcpServerState).canSend 3).1 = true ∧
    cameraCanSend 4000000000 5 3 = true ∧
    RelayClient.canSend 200 (U32 - 100) ((U32 - 100 + 200) % U32) = true := by
  refine ⟨?_, ?_, ?_⟩
  · exact canSend_wraparound_amended.1 _ 3 (by decide)
  · exact canSend_wraparound_amended.2.1 4000000000 5 3 (by decide)
  · exact canSend_wraparound_amended.2.2.2 200 (U32 - 100) (by decide) (by decide) (by decide)

/-- C8: under an always-failing connect, a `run()` tick makes no
reconnection attempt while less than `retryDelay` ms have elapsed since
the last attempt, makes exactly one attempt (stamping the attempt time)
once the threshold is reached, and — because the attempt time is
restamped — the immediately following ticks within the next
`retryDelay` window again make no attempt.  Shown both for
`RelayClient::run`'s guard and for `CameraRelayClient`'s guard (via
`attemptConnection` inside its `run`). -/
theorem retry_backoff :
    (∀ lastAttempt retryDelay now : Nat,
        lastAttempt ≤ now → now < U32 → now - lastAttempt < retryDelay →
          RelayClient.retryStep lastAttempt retryDelay now = (false, lastAttempt) ∧
          CameraRelayClient.retryStep lastAttempt retryDelay now = (false, lastAttempt)) ∧
    (∀ lastAttempt retryDelay now : Nat,
        lastAttempt ≤ now → now < U32 → retryDelay ≤ now - lastAttempt →
          RelayClient.retryStep lastAttempt retryDelay now = (true, now) ∧
          CameraRelayClient.retryStep lastAttempt retryDelay now = (true, now)) ∧
    (∀ lastAttempt retryDelay now now2 : Nat,
        lastAttempt ≤ now → now < U32 → retryDelay ≤ now - lastAttempt →
          now ≤ now2 → now2 < U32 → now2 - now < retryDelay →
          RelayClient.retryStep
            (RelayClient.retryStep lastAttempt retryDelay now).2 retryDelay now2 =
            (false, now)) ∧
    (∀ (s : CamRelayState) (now : Nat) (o : CamOracle),
        s.cameraInitialized = true → s.isConnected = false → o.connectOk = false →
          (s.run now o).1 = CamStatus.reconnecting ∧
          (s.run now o).2.lastConnectionAttempt =
            (CameraRelayClient.retryStep s.lastConnectionAttempt s.retryDelay now).2) := by
  have hidle : ∀ lastAttempt retryDelay now : Nat,
      lastAttempt ≤ now → now < U32 → now - lastAttempt < retryDelay →
        RelayClient.retryStep lastAttempt retryDelay now = (false, lastAttempt) ∧
        CameraRelayClient.retryStep lastAttempt retryDelay now = (false, lastAttempt) := by
    intro lastAttempt retryDelay now h1 h2 h3
    have he : usub32 now lastAttempt = now - lastAttempt := usub32_of_le now lastAttempt h1 h2
    constructor
    · unfold RelayClient.retryStep
      rw [he, if_neg (by omega)]
    · unfold CameraRelayClient.retryStep
      rw [he, if_pos h3]
  have hfire : ∀ lastAttempt retryDelay now : Nat,
      lastAttempt ≤ now → now < U32 → retryDelay ≤ now - lastAttempt →
        RelayClient.retryStep lastAttempt retryDelay now = (true, now) ∧
        CameraRelayClient.retryStep lastAttempt retryDelay now = (true, now) := by
    intro lastAttempt retryDelay now h1 h2 h3
    have he : usub32 now lastAttempt = now - lastAttempt := usub32_of_le now lastAttempt h1 h2
    constructor
    · unfold RelayClient.retryStep
      rw [he, if_pos h3]
    · unfold CameraRelayClient.retryStep
      rw [he, if_neg (by omega)]
  refine ⟨hidle, hfire, ?_, ?_⟩
  · intro lastAttempt retryDelay now now2 h1 h2 h3 h4 h5 h6
    rw [(hfire lastAttempt retryDelay now h1 h2 h3).1]
    exact (hidle now retryDelay now2 h4 h5 h6).1
  · intro s now o hcam hconn hfail
    unfold CamRelayState.run
    rw [hcam]
    simp only [Bool.true_eq_false, if_false, hconn, if_true]
    unfold CamRelayState.attemptConnection CameraRelayClient.retryStep
    rw [hfail]
    by_cases hg : usub32 now s.lastConnectionAttempt < s.retryDelay
    · rw [if_pos hg, if_pos hg]
      simp [hconn]
    · rw [if_neg hg, if_neg hg]
      simp [hconn]

/-- Witness for C8 at the default 5000 ms delay: a tick at 4999 ms
since the last attempt does nothing, the tick at 5000 ms attempts and
restamps, and a tick 10 ms after that attempt again does nothing. -/
theorem retry_backoff_at_5000 :
    RelayClient.retryStep 0 5000 4999 = (false, 0) ∧
    CameraRelayClient.retryStep 0 5000 4999 = (false, 0) ∧
    RelayClient.retryStep 0 5000 5000 = (true, 5000) ∧
    RelayClient.retryStep (RelayClient.retryStep 0 5000 5000).2 5000 5010 = (false, 5000) := by
  refine ⟨(retry_backoff.1 0 5000 4999 (by decide) (by decide) (by decide)).1,
    (retry_backoff.1 0 5000 4999 (by decide) (by decide) (by decide)).2,
    (retry_backoff.2.1 0 5000 5000 (by decide) (by decide) (by decide)).1,
    retry_backoff.2.2.1 0 5000 5000 5010 (by decide) (by decide) (by decide)
      (by decide) (by decide) (by decide)⟩

/-- C4 (counterexample): a `CameraRelayClient` in the `Connected`
state whose tick captures and fully writes a 5-byte frame returns `OK`
— and is still connected afterwards, contradicting the claim that the
push role is back in `Disconnected` immediately after every fully
successful send. -/
theorem camRelay_run_stays_connected_after_ok :
    (({ isConnected := true, cameraInitialized := true, retryDelay := 5000,
        lastConnectionAttempt := 0, lastFrameTime := 0, frameInterval := 0,
        frameCount := 0, bytesSent := 0, fpsTimestamps := List.replicate 10 0,
        fpsIndex := 0 } : CamRelayState).run 1
      { connectOk := false, clientAlive := true, captureOk := true,
        fbLen := 5, written := 5 }).1 = CamStatus.ok ∧
    (({ isConnected := true, cameraInitialized := true, retryDelay := 5000,
        lastConnectionAttempt := 0, lastFrameTime := 0, frameInterval := 0,
        frameCount := 0, bytesSent := 0, fpsTimestamps := List.replicate 10 0,
        fpsIndex := 0 } : CamRelayState).run 1
      { connectOk := false, clientAlive := true, captureOk := true,
        fbLen := 5, written := 5 }).2.isConnected = true := by
  constructor
  · decide
  · decide

/-- C4 (amended): after a fully successful `RelayClient::sendData` the
transport is proactively closed and `isConnected()` is `false`
immediately, for every connected state, payload and write behaviour;
`CameraRelayClient::run`, by contrast, keeps the session connected
after a fully successful send — every `OK` tick leaves
`_isConnected == true`. -/
theorem push_role_disconnect_after_send :
    (∀ (s : RelayState) (length now : Nat) (conn : Nat → Bool) (wr : Nat → Nat),
        (s.sendData length now conn wr).1 = true →
          (s.sendData length now conn wr).2.isConnected = false) ∧
    (∀ (s : CamRelayState) (now : Nat) (o : CamOracle),
        (s.run now o).1 = CamStatus.ok → (s.run now o).2.isConnected = true) := by
  constructor
  · intro s length now conn wr h
    by_cases h1 : s.isConnected = false
    · simp [RelayState.sendData, h1] at h
    · by_cases h2 : RelayClient.canSend s.minSendInterval s.lastSendTime now = false
      · simp [RelayState.sendData, h1, h2] at h
      · cases hloop : relayWriteLoop conn wr 0 0 length with
        | none => simp [RelayState.sendData, h1, h2, hloop] at h
        | some totalSent => simp [RelayState.sendData, h1, h2, hloop]
  · intro s now o h
    by_cases h1 : s.cameraInitialized = false
    · simp [CamRelayState.run, h1] at h
    · by_cases h2 :
        (if s.isConnected = false then s.attemptConnection now o.connectOk else s).isConnected
          = false
      · simp [CamRelayState.run, h1, h2] at h
      · by_cases h3 : o.clientAlive = false
        · simp [CamRelayState.run, h1, h2, h3] at h
        · by_cases h4 : cameraCanSend
              (if s.isConnected = false then s.attemptConnection now o.connectOk
                else s).frameInterval
              (if s.isConnected = false then s.attemptConnection now o.connectOk
                else s).lastFrameTime now = false
          · simp [CamRelayState.run, h1, h2, h3, h4] at h
          · by_cases h5 : o.captureOk = false
            · simp [CamRelayState.run, h1, h2, h3, h4, h5] at h
            · by_cases h6 : o.written ≠ o.fbLen
              · simp [CamRelayState.run, h1, h2, h3, h4, h5, h6] at h
              · simp only [Bool.not_eq_false] at h2
                simp [CamRelayState.run, h1, h2, h3, h4, h5, h6]

/-- Witness for the amended C4: a connected `RelayClient` that writes a
4-byte frame in one successful socket write reports success and is
disconnected; the concrete connected `CameraRelayClient` tick of an
always-successful environment reports `OK` and stays connected. -/
theorem push_role_disconnect_after_send_at_inputs :
    ((⟨true, 0, 0, 0, 0, 0⟩ : RelayState).sendData 4 9
        (fun _ => true) (fun _ => 4)).2.isConnected = false ∧
    (({ isConnected := true, cameraInitialized := true, retryDelay := 5000,
        lastConnectionAttempt := 0, lastFrameTime := 0, frameInterval := 0,
        frameCount := 3, bytesSent := 0, fpsTimestamps := List.replicate 10 0,
        fpsIndex := 0 } : CamRelayState).run 2
      { connectOk := true, clientAlive := true, captureOk := true,
        fbLen := 7, written := 7 }).2.isConnected = true := by
  constructor
  · apply push_role_disconnect_after_send.1 ⟨true, 0, 0, 0, 0, 0⟩ 4 9
      (fun _ => true) (fun _ => 4)
    rw [RelayState.sendData]
    rw [relayWriteLoop]
    simp only [if_neg (by decide : ¬ (4 : Nat) = 0)]
    rw [relayWriteLoop]
    rfl
  · apply push_role_disconnect_after_send.2 _ 2 _
    decide

/-- C10 (evaluation at the failing input): statistics are not atomic
with respect to fully successful sends.  A connected `RelayClient`
sending a 2-byte frame whose first socket write accepts 1 byte and
whose connection then reports dead makes the write loop exit normally
with only 1 of 2 bytes sent — yet `sendData` returns `true` and
advances `_frameCount` to 1 and `_totalBytesSent` by the partial count
1 (the loop guard `remaining > 0 && _client.connected()` treats a
mid-loop disconnect as normal completion). -/
theorem relay_sendData_counts_partial_write :
    RelayState.sendData ⟨true, 0, 0, 0, 0, 0⟩ 2 7
        (fun i => decide (i = 0)) (fun _ => 1) =
      (true, ⟨false, 0, 7, 0, 1, 1⟩) := by
  have hloop : relayWriteLoop (fun i => decide (i = 0)) (fun _ => 1) 0 0 2 = some 1 := by
    rw [relayWriteLoop]
    norm_num
    rw [relayWriteLoop]
    norm_num
  rw [RelayState.sendData]
  rw [hloop]
  rfl
